import Mathlib

/-!
Shallow embedding of `valentyusb/usbcore/cpu/eptri.py` (Migen/LiteX RTL).

Modelling conventions:
* Migen combinational blocks become pure Lean functions of the current
  register/state values.  Within one combinational process, later assignments
  to a signal override earlier ones, and every combinationally driven signal
  defaults to 0 (false); both conventions are reproduced below.
* Migen synchronous blocks become step functions `state → inputs → state`
  in which every right-hand side reads the pre-edge state and the last
  assignment to a register in program order wins.
* Hardware truncation is made explicit with `% 2^w` (4-bit endpoint numbers,
  8-bit payloads and counters, 16-bit toggle vector).
* LiteX `CSRStorage` semantics: the `re` strobe is visible to user logic on
  the cycle on which `storage` already holds the newly written value, so a
  register write is modelled as an atomic update of the storage bits together
  with any user logic gated on `re`.
* FIFOs (`migen.genlib.fifo.SyncFIFOBuffered`) are modelled as bounded lists
  with head at index 0; `we`/`din` appends (dropped when full), `re` pops,
  `readable` is non-emptiness, and an inserted `reset` empties the FIFO and
  dominates concurrent writes.
-/

/-- USB token PIDs as used by `eptri.py` (`usb_core.tok`): the 2-bit token
group from `..pid.PID`. -/
inductive PID where
  | OUT
  | SOF
  | IN
  | SETUP
deriving DecidableEq, Repr

/-- The states of the `stage` FSM declared in `TriEndpointInterface.__init__`
(`FSM(reset_state="IDLE")` with the `stage.act(...)` blocks). -/
inductive Stage where
  | IDLE
  | CHECK_TOK
  | DEBUG
  | SETUP
  | CONTROL_IN
  | CONTROL_OUT
  | WAIT_CONTROL_ACK_IN
  | WAIT_CONTROL_ACK_OUT
  | IN
  | OUT
  | WAIT_DONE
deriving DecidableEq, Repr

/-- Per-cycle inputs of the stage FSM coming from the transfer core
(`usb_core.*`) plus the debug-detect line.  `endTrans` is `usb_core.end`
(`end` is reserved in Lean), `put`/`payload` are `usb_core.data_recv_put` /
`usb_core.data_recv_payload`, `dbg` is `debug_packet_detected`. -/
structure CoreIn where
  idle : Bool
  tok : PID
  endp : Nat
  start : Bool
  setup : Bool
  endTrans : Bool
  dataEnd : Bool
  commit : Bool
  put : Bool
  payload : Nat
  dbg : Bool
deriving DecidableEq, Repr

/-- Current values of the signals the stage FSM reads combinationally from
the rest of the design: `should_stall`, the three handlers' response/empty
lines, the In handler's `dtb` output, and the engine registers
`setup_is_in` / `setup_data_stage`. -/
structure Env where
  stall : Bool
  inResponse : Bool
  outResponse : Bool
  setupEmpty : Bool
  inDtb : Bool
  setupIsIn : Bool
  setupDataStage : Bool
deriving DecidableEq, Repr

/-- Combinational outputs of the stage FSM that the claims are about:
next state, `usb_core.sta`, `usb_core.arm`, `usb_core.dtb`,
`in_handler.dtb_reset`, `invalid_state_ce`, the effective
`setup_handler.trigger` line, the forwarded `setup_handler.data_recv_put`,
`out_handler.ctrl_response` and `stage_num`. -/
structure StageOut where
  next : Stage
  stageNum : Nat
  sta : Bool
  arm : Bool
  dtb : Bool
  dtbReset : Bool
  invalidCe : Bool
  setupTrig : Bool
  setupRecvPut : Bool
  ctrlResponse : Bool
deriving DecidableEq, Repr

/-- Default (all signals deasserted, state held) output of the stage FSM's
combinational process.  `setupTrig` defaults to the `SetupHandler`'s own
unconditional driver `self.trigger.eq(buf.readable & usb_core.end)`, which in
the flattened design is overridden by the FSM only inside the `SETUP` state
(the FSM submodule's statements come last in the flattened comb process). -/
def stageDefault (st : Stage) (i : CoreIn) (e : Env) : StageOut :=
  { next := st
    stageNum := 0
    sta := false
    arm := false
    dtb := false
    dtbReset := false
    invalidCe := false
    setupTrig := !e.setupEmpty && i.endTrans
    setupRecvPut := false
    ctrlResponse := false }

/-- The stage FSM's combinational function, a direct transcription of the
`stage.act(...)` blocks of `TriEndpointInterface` (built with `debug=False`,
so the `DEBUG` state is `stage.act("DEBUG", NextState("IDLE"))`). -/
def stageComb (st : Stage) (i : CoreIn) (e : Env) : StageOut :=
  let base := stageDefault st i e
  match st with
  | .IDLE =>
      { base with stageNum := 0, next := if i.start then .CHECK_TOK else .IDLE }
  | .CHECK_TOK =>
      if i.idle then
        { base with stageNum := 1, next := .IDLE }
      else if i.tok = .SETUP then
        { base with stageNum := 1, next := .SETUP, sta := false, arm := true }
      else if i.tok = .IN then
        { base with
          stageNum := 1
          next := .IN
          sta := e.stall
          arm := e.inResponse || e.stall }
      else if i.tok = .OUT then
        { base with
          stageNum := 1
          next := .OUT
          sta := e.stall
          arm := e.outResponse || e.stall }
      else
        { base with stageNum := 1, next := .IDLE }
  | .DEBUG =>
      { base with stageNum := 0, next := .IDLE }
  | .SETUP =>
      let r := { base with
        stageNum := 3
        dtbReset := true
        sta := false
        arm := true
        setupTrig := i.commit
        setupRecvPut := i.put
        next := if i.dbg then Stage.DEBUG else Stage.SETUP }
      if i.setup then
        if e.setupIsIn then
          if e.setupDataStage then
            { r with
              next := .CONTROL_IN
              sta := !e.outResponse && e.stall
              arm := e.inResponse || e.stall }
          else
            { r with next := .WAIT_CONTROL_ACK_IN }
        else
          if e.setupDataStage then
            { r with
              next := .CONTROL_OUT
              sta := !e.outResponse && e.stall
              arm := e.outResponse || e.stall }
          else
            { r with next := .WAIT_CONTROL_ACK_OUT }
      else if i.endTrans then
        { r with invalidCe := true, next := .IDLE }
      else r
  | .CONTROL_IN =>
      if i.endp % 16 = 0 then
        if i.tok = .IN then
          { base with
            stageNum := 4
            sta := e.stall
            arm := e.stall || (e.setupEmpty && e.inResponse)
            dtb := e.inDtb }
        else if i.tok = .OUT then
          { base with
            stageNum := 4
            sta := false
            arm := true
            ctrlResponse := true
            next := .WAIT_DONE }
        else { base with stageNum := 4 }
      else { base with stageNum := 4 }
  | .CONTROL_OUT =>
      if i.endp % 16 = 0 then
        if i.tok = .OUT then
          { base with
            stageNum := 5
            sta := e.stall
            arm := e.stall || (e.setupEmpty && e.outResponse) }
        else if i.tok = .IN then
          { base with
            stageNum := 5
            sta := false
            arm := e.setupEmpty
            next := .WAIT_DONE }
        else { base with stageNum := 5 }
      else { base with stageNum := 5 }
  | .WAIT_CONTROL_ACK_IN =>
      { base with
        stageNum := 6
        sta := false
        arm := e.setupEmpty
        dtb := true
        next := if i.endTrans && e.setupEmpty then .IDLE else .WAIT_CONTROL_ACK_IN }
  | .WAIT_CONTROL_ACK_OUT =>
      { base with
        stageNum := 7
        sta := false
        arm := e.setupEmpty
        dtb := true
        next := if i.dataEnd && e.setupEmpty then .IDLE else .WAIT_CONTROL_ACK_OUT }
  | .IN =>
      { base with
        stageNum := 8
        sta := e.stall
        arm := e.inResponse || e.stall
        dtb := e.inDtb
        next := if i.endTrans then .IDLE else .IN }
  | .OUT =>
      { base with
        stageNum := 9
        sta := e.stall
        arm := e.outResponse || e.stall
        next := if i.endTrans then .IDLE else .OUT }
  | .WAIT_DONE =>
      { base with
        stageNum := 10
        sta := false
        arm := true
        next := if i.endTrans then .IDLE else .WAIT_DONE }

/-- The 32-bit enable word
`enable.eq(Cat(enable_out0.storage, enable_out1.storage, enable_in0.storage, enable_in1.storage))`:
four CPU-writable 8-bit registers concatenated LSB-first. -/
def enable32 (o0 o1 i0 i1 : Nat) : Nat :=
  (o0 % 256) ||| ((o1 % 256) <<< 8) ||| ((i0 % 256) <<< 16) ||| ((i1 % 256) <<< 24)

/-- The index `eps_idx.eq(Cat(usb_core.endp, usb_core.tok == PID.IN))`: the 5-bit index,
4-bit endpoint in the low bits and the is-IN flag as bit 4. -/
def eps_idx (endp : Nat) (isIn : Bool) : Nat :=
  (endp % 16) + (if isIn then 16 else 0)

/-- The stall line `should_stall.eq(~(enable >> eps_idx))`: the 1-bit target takes the low
bit of the complement, i.e. the negation of bit `idx` of `enable`. -/
def should_stall (enable idx : Nat) : Bool :=
  !(enable.testBit idx)

/-- The enable bit the CPU actually controls for endpoint `E`, direction `d`
(`true` = IN), expressed directly on the four 8-bit registers. -/
def enableBit (o0 o1 i0 i1 E : Nat) (d : Bool) : Bool :=
  if d then
    (if E < 8 then (i0 % 256).testBit E else (i1 % 256).testBit (E - 8))
  else
    (if E < 8 then (o0 % 256).testBit E else (o1 % 256).testBit (E - 8))

/-- The stall formula exactly as the spec words it: NOT of the bit at index
`2*E + D` of the 32-bit enable word (refinement comparison definition). -/
def specShouldStall (enable E : Nat) (d : Bool) : Bool :=
  !(enable.testBit (2 * E + (if d then 1 else 0)))


/-- Registers of `SetupHandler`: the delayed-start flag `check_reset`, the
registered FIFO-reset line `buf.reset` (driven from the sync block), the
captured endpoint `epno` (4 bits), the byte counter `data_bytes` (3 bits),
the `have_data_stage` flag, and the 10-deep SETUP FIFO contents. -/
structure SetupState where
  checkReset : Bool
  bufReset : Bool
  epno : Nat
  dataBytes : Nat
  hds : Bool
  fifo : List Nat
deriving DecidableEq, Repr

/-- Per-cycle inputs of `SetupHandler`: `usb_core.start`, `usb_core.tok`,
`usb_core.endp`, the forwarded `data_recv_put`/`data_recv_payload` (driven by
the stage FSM only in its `SETUP` state), and the CPU FIFO-advance strobe
`ctrl.re & ctrl.storage[0]`. -/
structure SetupIn where
  start : Bool
  tok : PID
  endp : Nat
  put : Bool
  payload : Nat
  advance : Bool
deriving DecidableEq, Repr

/-- One clock edge of `SetupHandler`'s synchronous logic
(`self.sync.usb_12 += [...]` plus the FIFO semantics).  Within the Migen sync
process, when `check_reset & tok == SETUP` coincides with `data_recv_put`,
the later `If(self.data_recv_put, ...)` statement wins for `data_bytes` and
`have_data_stage`; the FIFO reset register asserted during this cycle
dominates any concurrent write or read. -/
def setupStep (s : SetupState) (i : SetupIn) : SetupState :=
  { checkReset := i.start
    bufReset := s.checkReset && (i.tok == PID.SETUP)
    epno := if s.checkReset && (i.tok == PID.SETUP) then i.endp % 16 else s.epno
    dataBytes :=
      if i.put then (s.dataBytes + 1) % 8
      else if s.checkReset && (i.tok == PID.SETUP) then 0
      else s.dataBytes
    hds :=
      if i.put && (i.payload % 256 != 0) && (s.dataBytes == 6 || s.dataBytes == 7) then true
      else if s.checkReset && (i.tok == PID.SETUP) then false
      else s.hds
    fifo :=
      if s.bufReset then []
      else
        let f := if i.advance then s.fifo.drop 1 else s.fifo
        if i.put && (i.tok == PID.SETUP) && f.length < 10 then f ++ [i.payload % 256]
        else f }

/-- Run `SetupHandler` over a list of per-cycle inputs. -/
def runSetup (s : SetupState) (is : List SetupIn) : SetupState :=
  is.foldl setupStep s

/-- The line `SetupHandler.empty = ~buf.readable`. -/
def setupHandlerEmpty (s : SetupState) : Bool :=
  s.fifo.isEmpty

/-- Registers of `InHandler`: the 16-bit toggle vector `dtbs`
(reset `0xffff`), the `queued` flag, the `ctrl` storage fields
`epno = ctrl.storage[0:4]` and `reset_fifo = ctrl.storage[4]`, and the
128-deep IN FIFO contents. -/
structure InState where
  dtbs : Nat
  queued : Bool
  epno : Nat
  resetBit : Bool
  fifo : List Nat
deriving DecidableEq, Repr

/-- Reset state of `InHandler` (`dtbs` reset value is `0xffff`). -/
def inInit : InState :=
  { dtbs := 0xffff, queued := false, epno := 0, resetBit := false, fifo := [] }

/-- Per-cycle inputs of `InHandler`: `dtb_reset` (driven by the stage FSM in
its `SETUP` state), an optional CPU `ctrl` register write (endpoint bits and
reset bit; `ctrlWrite.isSome` is the `ctrl.re` strobe), the transfer-core
lines `commit`/`arm`/`sta`/`tok`/`endp`, an optional CPU `data` register
write (`data.re` with the written byte), and the engine's
`data_out_advance` strobe. -/
structure InIn where
  dtbReset : Bool
  ctrlWrite : Option (Nat × Bool)
  commit : Bool
  arm : Bool
  sta : Bool
  tok : PID
  endp : Nat
  dataWrite : Option Nat
  advance : Bool
deriving DecidableEq, Repr

/-- One clock edge of `InHandler`'s synchronous logic: the priority chain
`If(dtb_reset, ...).Elif(ctrl.re, ...).Elif(usb_core.commit, ...)` over
`dtbs` and `queued`, plus the FIFO (`buf.we = data.re`,
`buf.re = data_out_advance`; no reset line is ever driven, so the `ctrl`
reset bit never touches the FIFO contents). -/
def inStep (s : InState) (i : InIn) : InState :=
  let epno' := match i.ctrlWrite with
    | some w => w.1 % 16
    | none => s.epno
  let resetBit' := match i.ctrlWrite with
    | some w => w.2
    | none => s.resetBit
  let ctrlRe := i.ctrlWrite.isSome
  { dtbs :=
      if i.dtbReset then s.dtbs ||| (1 <<< epno')
      else if ctrlRe then s.dtbs
      else if i.commit && (i.arm && !i.sta) then s.dtbs ^^^ (1 <<< epno')
      else s.dtbs
    queued :=
      if i.dtbReset then s.queued
      else if ctrlRe then !resetBit'
      else if i.commit && ((i.tok == PID.IN) && (i.endp % 16 == epno')) then false
      else s.queued
    epno := epno'
    resetBit := resetBit'
    fifo :=
      let f := if i.advance then s.fifo.drop 1 else s.fifo
      match i.dataWrite with
      | some b => if f.length < 128 then f ++ [b % 256] else f
      | none => f }

/-- Response `InHandler.response`: ACK only when the current token endpoint matches
the `ctrl`-selected endpoint and a transfer is queued. -/
def inResponse (s : InState) (endp : Nat) : Bool :=
  if endp % 16 == s.epno then s.queued else false

/-- Output `InHandler.dtb`: bit `usb_core.endp` of the toggle vector. -/
def inDtbOf (s : InState) (endp : Nat) : Bool :=
  s.dtbs.testBit (endp % 16)

/-- Registers of `OutHandler`: the 128-deep OUT FIFO contents, the `ctrl`
storage bits (`advance` = bit 0, `enable` = bit 1), the `have_data` register
(latched from the enable bit on each `ctrl` write), the captured endpoint,
and the `is_idle` flag (reset 1). -/
structure OutState where
  fifo : List Nat
  ctrlAdv : Bool
  ctrlEn : Bool
  haveData : Bool
  epno : Nat
  isIdle : Bool
deriving DecidableEq, Repr

/-- Reset state of `OutHandler`. -/
def outInit : OutState :=
  { fifo := [], ctrlAdv := false, ctrlEn := false, haveData := false,
    epno := 0, isIdle := true }

/-- A CPU write to `OUT_CTRL` (one `ctrl.re` cycle, LiteX semantics: the
storage already holds the written bits).  `buf.re = ctrl.storage[0] & ctrl.re`
pops the FIFO when the advance bit is written; the sync block latches
`have_data ← ctrl.storage[1]`. -/
def outCtrlWrite (s : OutState) (adv en : Bool) : OutState :=
  { s with
    ctrlAdv := adv
    ctrlEn := en
    haveData := en
    fifo := if adv then s.fifo.drop 1 else s.fifo }

/-- Per-cycle protocol-side inputs of `OutHandler`: the forwarded
`data_recv_put`/`data_recv_payload`, `usb_core.commit`, `usb_core.tok`,
`usb_core.endp`. -/
structure OutIn where
  put : Bool
  payload : Nat
  commit : Bool
  tok : PID
  endp : Nat
deriving DecidableEq, Repr

/-- One clock edge of `OutHandler`'s synchronous logic on a cycle with no CPU
`ctrl` write: FIFO write on `data_recv_put`, the `is_idle` update, and the
endpoint capture on OUT tokens. -/
def outProtoStep (s : OutState) (i : OutIn) : OutState :=
  { s with
    fifo := if i.put && s.fifo.length < 128 then s.fifo ++ [i.payload % 256] else s.fifo
    isIdle :=
      if i.commit && !s.fifo.isEmpty then true
      else if i.put then false
      else s.isIdle
    epno := if i.tok == PID.OUT then i.endp % 16 else s.epno }

/-- Response `OutHandler.response = have_data & ctrl.storage[1]` (ACK when 1). -/
def outResponse (s : OutState) : Bool :=
  s.haveData && s.ctrlEn

/-- The spec's wording of the Out response for comparison:
`fifo_has_data AND enable_flag`. -/
def specOutResponse (s : OutState) : Bool :=
  !s.fifo.isEmpty && s.ctrlEn

/-- The `invalid_states` diagnostic counter update:
`If(invalid_state_ce, invalid_states.eq(invalid_states+1))` on an 8-bit
register. -/
def invalidStatesStep (n : Nat) (ce : Bool) : Nat :=
  if ce then (n + 1) % 256 else n

/-- Composed state for tracking the Setup event line over time: the stage FSM
state together with the `SetupHandler` registers. -/
structure EngState where
  stage : Stage
  sh : SetupState
deriving DecidableEq, Repr

/-- One trace step's free inputs: the transfer-core lines, the remaining
combinational environment (the `SetupHandler`-derived `setupEmpty` field is
overridden from the tracked state), and the CPU's SETUP-FIFO advance strobe. -/
structure StepIn where
  core : CoreIn
  env : Env
  cpuAdv : Bool
deriving DecidableEq, Repr

/-- The environment seen by the stage FSM at a composed state: as `Env`, but
with `setup_handler.empty` computed from the tracked FIFO. -/
def envWith (e : Env) (g : EngState) : Env :=
  { e with setupEmpty := g.sh.fifo.isEmpty }

/-- The `SetupHandler` inputs induced by a composed state and a trace input:
`data_recv_put` is forwarded by the FSM only in the `SETUP` stage. -/
def toSetupIn (g : EngState) (x : StepIn) : SetupIn :=
  { start := x.core.start
    tok := x.core.tok
    endp := x.core.endp
    put := (stageComb g.stage x.core (envWith x.env g)).setupRecvPut
    payload := x.core.payload
    advance := x.cpuAdv }

/-- One step of the composed engine + Setup handler. -/
def engStep (g : EngState) (x : StepIn) : EngState :=
  { stage := (stageComb g.stage x.core (envWith x.env g)).next
    sh := setupStep g.sh (toSetupIn g x) }

/-- The `setup_handler.trigger` (event-raise) line at a composed state. -/
def trigOf (g : EngState) (x : StepIn) : Bool :=
  (stageComb g.stage x.core (envWith x.env g)).setupTrig

/-- Number of cycles in a trace on which the Setup event line is raised. -/
def countTrig (g : EngState) : List StepIn → Nat
  | [] => 0
  | x :: xs => (if trigOf g x then 1 else 0) + countTrig (engStep g x) xs

/-- Number of cycles in a trace on which a SETUP token commits (the engine is
in its `SETUP` stage and `usb_core.commit` pulses). -/
def countSetupCommit (g : EngState) : List StepIn → Nat
  | [] => 0
  | x :: xs =>
      (if g.stage = Stage.SETUP ∧ x.core.commit then 1 else 0) +
        countSetupCommit (engStep g x) xs

/-- Number of cycles in a trace on which a transaction ends outside the
`SETUP` stage while the SETUP FIFO still holds unread bytes. -/
def countStaleEnd (g : EngState) : List StepIn → Nat
  | [] => 0
  | x :: xs =>
      (if g.stage ≠ Stage.SETUP ∧ g.sh.fifo.isEmpty = false ∧ x.core.endTrans then 1 else 0) +
        countStaleEnd (engStep g x) xs

lemma testBit_mod256_high (x k : Nat) (h : 8 ≤ k) : (x % 256).testBit k = false := by
  rw [show (256 : Nat) = 2 ^ 8 from rfl, Nat.testBit_mod_two_pow]
  simp only [Bool.and_eq_false_imp, decide_eq_true_eq]
  intro hk
  omega

/-- C1: the claim's stall formula `NOT (enable bit at index 2*endpoint + is_IN)`
disagrees with the code: with `enable_out0 = 0b10` (endpoint 1 OUT enabled)
and an OUT token to endpoint 1, `should_stall` as computed by the hardware
(`~(enable >> Cat(endp, tok == IN))`) is 0, while the spec's indexing
`2*E + D = 2` reads a zero bit and demands a STALL. -/
theorem c1_counterexample :
    should_stall (enable32 2 0 0 0) (eps_idx 1 false) = false ∧
    specShouldStall (enable32 2 0 0 0) 1 false = true := by decide

/-- C1 (amended): the stall decision is the negation of the enable bit at
index `endpoint + 16*is_IN` of `Cat(out0, out1, in0, in1)` — equivalently,
the negation of the CPU-written per-register enable bit for that
endpoint/direction — and the engine's `sta` output in token classification
is exactly this freshly recomputed `should_stall` value for IN and OUT
tokens (no caching: it is a pure function of the current register values). -/
theorem c1_amended :
    (∀ o0 o1 i0 i1 E d, E < 16 →
      should_stall (enable32 o0 o1 i0 i1) (eps_idx E d) = !(enableBit o0 o1 i0 i1 E d)) ∧
    (∀ (i : CoreIn) (e : Env), i.idle = false → (i.tok = PID.IN ∨ i.tok = PID.OUT) →
      (stageComb Stage.CHECK_TOK i e).sta = e.stall) := by
  constructor
  · intro o0 o1 i0 i1 E d hE
    interval_cases E <;> cases d <;>
      simp [should_stall, enable32, eps_idx, enableBit, Nat.testBit_lor,
        Nat.testBit_shiftLeft, testBit_mod256_high]
  · intro i e hidle htok
    rcases htok with h | h <;> simp [stageComb, stageDefault, hidle, h]

/-- Witness for `c1_amended` at endpoint 5, direction IN, and a concrete
IN-token classification cycle. -/
theorem c1_amended_witness :
    (5 : Nat) < 16 ∧
    should_stall (enable32 1 2 3 4) (eps_idx 5 true) = !(enableBit 1 2 3 4 5 true) ∧
    (stageComb Stage.CHECK_TOK
        { idle := false, tok := PID.IN, endp := 5, start := false, setup := false,
          endTrans := false, dataEnd := false, commit := false, put := false,
          payload := 0, dbg := false }
        { stall := true, inResponse := false, outResponse := false, setupEmpty := true,
          inDtb := false, setupIsIn := false, setupDataStage := false }).sta = true :=
  ⟨by decide, c1_amended.1 1 2 3 4 5 true (by decide),
    c1_amended.2 _ _ rfl (Or.inl rfl)⟩

/-- C2: the always-ACK guarantee does not hold "regardless of the engine's
current stage": a SETUP token arriving while the engine sits in
`CONTROL_IN` (which has no end-of-transaction exit) matches neither the
`tok == IN` nor the `tok == OUT` branch, so `arm` stays deasserted and the
SETUP token is not acknowledged. -/
theorem c2_counterexample :
    (stageComb Stage.CONTROL_IN
        { idle := false, tok := PID.SETUP, endp := 0, start := true, setup := false,
          endTrans := false, dataEnd := false, commit := false, put := false,
          payload := 0, dbg := false }
        { stall := false, inResponse := false, outResponse := false, setupEmpty := false,
          inDtb := false, setupIsIn := true, setupDataStage := true }).arm = false := by
  decide

/-- C2 (amended): for SETUP tokens classified from IDLE the guarantee holds:
in `CHECK_TOK` on a non-idle SETUP token, and in the `SETUP` stage for every
cycle before the transfer core signals the end of the SETUP transaction
(`usb_core.setup`), the engine drives `sta = 0` and `arm = 1`, for every
enable-bitmap value and FIFO occupancy. -/
theorem c2_amended : ∀ (i : CoreIn) (e : Env),
    (i.idle = false → i.tok = PID.SETUP →
      (stageComb Stage.CHECK_TOK i e).sta = false ∧
      (stageComb Stage.CHECK_TOK i e).arm = true) ∧
    (i.setup = false →
      (stageComb Stage.SETUP i e).sta = false ∧
      (stageComb Stage.SETUP i e).arm = true) := by
  intro i e
  constructor
  · intro h1 h2
    simp [stageComb, stageDefault, h1, h2]
  · intro h
    simp only [stageComb, stageDefault, h, Bool.false_eq_true, if_false]
    split <;> simp

/-- Witness for `c2_amended`: a concrete SETUP classification cycle and a
concrete mid-SETUP cycle. -/
theorem c2_amended_witness :
    ((stageComb Stage.CHECK_TOK
        { idle := false, tok := PID.SETUP, endp := 3, start := false, setup := false,
          endTrans := false, dataEnd := false, commit := false, put := false,
          payload := 0, dbg := false }
        { stall := true, inResponse := false, outResponse := false, setupEmpty := false,
          inDtb := false, setupIsIn := false, setupDataStage := false }).sta = false ∧
      (stageComb Stage.CHECK_TOK
        { idle := false, tok := PID.SETUP, endp := 3, start := false, setup := false,
          endTrans := false, dataEnd := false, commit := false, put := false,
          payload := 0, dbg := false }
        { stall := true, inResponse := false, outResponse := false, setupEmpty := false,
          inDtb := false, setupIsIn := false, setupDataStage := false }).arm = true) ∧
    ((stageComb Stage.SETUP
        { idle := false, tok := PID.SETUP, endp := 3, start := false, setup := false,
          endTrans := true, dataEnd := false, commit := true, put := false,
          payload := 0, dbg := false }
        { stall := true, inResponse := false, outResponse := false, setupEmpty := false,
          inDtb := false, setupIsIn := false, setupDataStage := false }).sta = false ∧
      (stageComb Stage.SETUP
        { idle := false, tok := PID.SETUP, endp := 3, start := false, setup := false,
          endTrans := true, dataEnd := false, commit := true, put := false,
          payload := 0, dbg := false }
        { stall := true, inResponse := false, outResponse := false, setupEmpty := false,
          inDtb := false, setupIsIn := false, setupDataStage := false }).arm = true) :=
  ⟨(c2_amended _ _).1 rfl rfl, (c2_amended _ _).2 rfl⟩

/-- C5: the unclassifiable-token path does not increment the diagnostic
counter: in `CHECK_TOK` with a non-idle SOF condition (neither SETUP, IN,
nor OUT), `invalid_state_ce` stays deasserted and the counter is unchanged;
the claim's "increments the invalid_state counter" is false at this input. -/
theorem c5_counterexample :
    (stageComb Stage.CHECK_TOK
        { idle := false, tok := PID.SOF, endp := 0, start := false, setup := false,
          endTrans := false, dataEnd := false, commit := false, put := false,
          payload := 0, dbg := false }
        { stall := false, inResponse := false, outResponse := false, setupEmpty := true,
          inDtb := false, setupIsIn := false, setupDataStage := false }).invalidCe = false ∧
    invalidStatesStep 7
      (stageComb Stage.CHECK_TOK
        { idle := false, tok := PID.SOF, endp := 0, start := false, setup := false,
          endTrans := false, dataEnd := false, commit := false, put := false,
          payload := 0, dbg := false }
        { stall := false, inResponse := false, outResponse := false, setupEmpty := true,
          inDtb := false, setupIsIn := false, setupDataStage := false }).invalidCe = 7 := by
  decide

/-- C5 (amended): when token classification observes neither SETUP, IN, OUT,
nor idle, the engine silently returns to IDLE — `arm` and `sta` deasserted
and the `invalid_states` counter untouched; the counter is instead
incremented exactly when the `SETUP` stage sees the transaction end without
the transfer core's setup-complete indication. -/
theorem c5_amended :
    (∀ (i : CoreIn) (e : Env) (n : Nat),
      i.idle = false → i.tok ≠ PID.SETUP → i.tok ≠ PID.IN → i.tok ≠ PID.OUT →
      (stageComb Stage.CHECK_TOK i e).next = Stage.IDLE ∧
      (stageComb Stage.CHECK_TOK i e).sta = false ∧
      (stageComb Stage.CHECK_TOK i e).arm = false ∧
      invalidStatesStep n (stageComb Stage.CHECK_TOK i e).invalidCe = n) ∧
    (∀ (st : Stage) (i : CoreIn) (e : Env),
      (stageComb st i e).invalidCe = true ↔
        st = Stage.SETUP ∧ i.setup = false ∧ i.endTrans = true) := by
  constructor
  · intro i e n h0 h1 h2 h3
    simp [stageComb, stageDefault, invalidStatesStep, h0, h1, h2, h3]
  · intro st i e
    constructor
    · intro h
      cases st <;>
        simp only [stageComb, stageDefault] at h <;>
        (repeat' split at h) <;> simp_all
    · rintro ⟨h1, h2, h3⟩
      subst h1
      simp [stageComb, stageDefault, h2, h3]

/-- Witness for `c5_amended`: a concrete non-idle SOF classification cycle. -/
theorem c5_amended_witness :
    (stageComb Stage.CHECK_TOK
        { idle := false, tok := PID.SOF, endp := 2, start := false, setup := false,
          endTrans := false, dataEnd := false, commit := false, put := false,
          payload := 0, dbg := false }
        { stall := true, inResponse := true, outResponse := true, setupEmpty := false,
          inDtb := false, setupIsIn := false, setupDataStage := false }).next = Stage.IDLE ∧
    invalidStatesStep 41
      (stageComb Stage.CHECK_TOK
        { idle := false, tok := PID.SOF, endp := 2, start := false, setup := false,
          endTrans := false, dataEnd := false, commit := false, put := false,
          payload := 0, dbg := false }
        { stall := true, inResponse := true, outResponse := true, setupEmpty := false,
          inDtb := false, setupIsIn := false, setupDataStage := false }).invalidCe = 41 ∧
    ((stageComb Stage.SETUP
        { idle := false, tok := PID.SETUP, endp := 0, start := false, setup := false,
          endTrans := true, dataEnd := false, commit := false, put := false,
          payload := 0, dbg := false }
        { stall := false, inResponse := false, outResponse := false, setupEmpty := false,
          inDtb := false, setupIsIn := false, setupDataStage := false }).invalidCe = true ↔
      Stage.SETUP = Stage.SETUP ∧ (false : Bool) = false ∧ (true : Bool) = true) :=
  ⟨((c5_amended.1 _ _ 41 rfl (by decide) (by decide) (by decide)).1),
    ((c5_amended.1 _ _ 41 rfl (by decide) (by decide) (by decide)).2.2.2),
    c5_amended.2 Stage.SETUP
      { idle := false, tok := PID.SETUP, endp := 0, start := false, setup := false,
        endTrans := true, dataEnd := false, commit := false, put := false,
        payload := 0, dbg := false }
      { stall := false, inResponse := false, outResponse := false, setupEmpty := false,
        inDtb := false, setupIsIn := false, setupDataStage := false }⟩

/-- C6: the claim "hold the arm line high until the FIFO empties" is false:
in `WAIT_CONTROL_ACK_IN` with the SETUP FIFO still holding unread bytes
(`setup_handler.empty = 0`), the code drives
`usb_core.arm.eq(setup_handler.empty)`, i.e. arm is LOW — the status token
is NAKed until the CPU drains the FIFO, not ACKed while it drains. -/
theorem c6_counterexample :
    (stageComb Stage.WAIT_CONTROL_ACK_IN
        { idle := false, tok := PID.OUT, endp := 0, start := false, setup := false,
          endTrans := false, dataEnd := false, commit := false, put := false,
          payload := 0, dbg := false }
        { stall := false, inResponse := false, outResponse := false, setupEmpty := false,
          inDtb := false, setupIsIn := true, setupDataStage := false }).arm = false := by
  decide

/-- C6 (amended): in `WAIT_CONTROL_ACK_IN` / `WAIT_CONTROL_ACK_OUT` the arm
line equals `setup_handler.empty` (low while the Setup FIFO holds unread
bytes, high once the CPU has drained it), stall is never asserted, and the
engine returns to IDLE exactly when the transaction end (`end` for ACK_IN,
`data_end` for ACK_OUT) coincides with an empty FIFO.  Stated against the
composed state so that `empty` is the tracked Setup FIFO's emptiness. -/
theorem c6_amended : ∀ (i : CoreIn) (e : Env) (st : Stage) (sh : SetupState),
    (stageComb Stage.WAIT_CONTROL_ACK_IN i (envWith e ⟨st, sh⟩)).arm = sh.fifo.isEmpty ∧
    (stageComb Stage.WAIT_CONTROL_ACK_IN i (envWith e ⟨st, sh⟩)).sta = false ∧
    (stageComb Stage.WAIT_CONTROL_ACK_IN i (envWith e ⟨st, sh⟩)).next =
      (if i.endTrans && sh.fifo.isEmpty then Stage.IDLE else Stage.WAIT_CONTROL_ACK_IN) ∧
    (stageComb Stage.WAIT_CONTROL_ACK_OUT i (envWith e ⟨st, sh⟩)).arm = sh.fifo.isEmpty ∧
    (stageComb Stage.WAIT_CONTROL_ACK_OUT i (envWith e ⟨st, sh⟩)).sta = false ∧
    (stageComb Stage.WAIT_CONTROL_ACK_OUT i (envWith e ⟨st, sh⟩)).next =
      (if i.dataEnd && sh.fifo.isEmpty then Stage.IDLE else Stage.WAIT_CONTROL_ACK_OUT) :=
  fun _ _ _ _ => ⟨rfl, rfl, rfl, rfl, rfl, rfl⟩

/-- C3: the Out Handler's response does not consult FIFO occupancy.  From
reset, two CPU writes of `OUT_CTRL.ENABLE = 1` (no data ever received, FIFO
empty) leave `response = 1`, while the claimed formula
`fifo_has_data AND enable_flag` evaluates to 0. -/
theorem c3_counterexample :
    outResponse (outCtrlWrite (outCtrlWrite outInit false true) false true) = true ∧
    (outCtrlWrite (outCtrlWrite outInit false true) false true).fifo = [] ∧
    specOutResponse (outCtrlWrite (outCtrlWrite outInit false true) false true) = false := by
  decide

/-- C3 (amended): the response equals `have_data AND enable` where
`have_data` is the enable bit latched at the most recent `OUT_CTRL` write:
after any ctrl write the response equals the written enable bit — regardless
of FIFO occupancy — and no protocol-side activity (receive, commit) changes
it.  In particular a drain write (`ADVANCE=1`) with enable 0 forces NAK for
all subsequent OUT tokens until a ctrl write with enable 1. -/
theorem c3_amended : ∀ (s : OutState) (adv en : Bool) (i : OutIn),
    outResponse (outCtrlWrite s adv en) = en ∧
    outResponse (outProtoStep s i) = outResponse s ∧
    outResponse (outCtrlWrite s true false) = false := by
  intro s adv en i
  refine ⟨?_, rfl, rfl⟩
  simp [outResponse, outCtrlWrite]

/-- C4 (code evaluation at the failing input): `InHandler`'s toggle flip
`If(usb_core.arm & ~usb_core.sta, dtbs.eq(dtbs ^ (1 << epno)))` is not gated
on `is_in_packet & is_our_packet`.  A committed, armed, non-stalled OUT
transaction on endpoint 5 (state: `ctrl` endpoint = 2, `dtbs = 0xffff`)
flips endpoint 2's IN data-toggle bit: `dtbs` becomes `0xfffb` although no
IN transaction occurred and no toggle reset was requested. -/
theorem c4_code_bug_eval :
    (inStep { dtbs := 0xffff, queued := true, epno := 2, resetBit := false, fifo := [] }
        { dtbReset := false, ctrlWrite := none, commit := true, arm := true, sta := false,
          tok := PID.OUT, endp := 5, dataWrite := none, advance := false }).dtbs = 0xfffb ∧
    Nat.testBit 0xffff 2 = true ∧
    Nat.testBit 0xfffb 2 = false := by decide

/-- The `IN_CTRL` write cycle used by C9: reset bit set, no concurrent
toggle reset, no data write, no advance. -/
def inResetWriteIn (ep : Nat) (cm a st : Bool) (tk : PID) (en : Nat) : InIn :=
  { dtbReset := false
    ctrlWrite := some (ep, true)
    commit := cm
    arm := a
    sta := st
    tok := tk
    endp := en
    dataWrite := none
    advance := false }

/-- C9: writing `IN_CTRL` with the reset bit (bit 4) set clears `queued`
(taking the `Elif(self.ctrl.re, queued.eq(~reset_fifo))` branch), leaves the
IN FIFO contents untouched (no reset line of `data_buf` is ever driven), and
makes the response to IN tokens on every endpoint NAK — and the response
stays NAK across further cycles without a ctrl write or toggle reset. -/
theorem c9_in_ctrl_reset : ∀ (s : InState) (ep q : Nat) (cm a st : Bool) (tk : PID) (en : Nat),
    (inStep s (inResetWriteIn ep cm a st tk en)).queued = false ∧
    (inStep s (inResetWriteIn ep cm a st tk en)).fifo = s.fifo ∧
    inResponse (inStep s (inResetWriteIn ep cm a st tk en)) q = false ∧
    (∀ (j : InIn), j.dtbReset = false → j.ctrlWrite = none →
      inResponse (inStep (inStep s (inResetWriteIn ep cm a st tk en)) j) q = false) := by
  intro s ep q cm a st tk en
  refine ⟨rfl, rfl, ?_, ?_⟩
  · simp only [inResponse, inStep, inResetWriteIn]
    split <;> rfl
  · intro j h1 h2
    simp only [inResponse, inStep, inResetWriteIn, h1, h2]
    repeat' split
    all_goals simp_all

/-- Witness for `c9_in_ctrl_reset` at a concrete state and follow-up cycle. -/
theorem c9_in_ctrl_reset_witness :
    inResponse (inStep (inStep { dtbs := 0, queued := true, epno := 3, resetBit := false, fifo := [1, 2] } (inResetWriteIn 3 false false false PID.IN 3)) { dtbReset := false, ctrlWrite := none, commit := true, arm := true, sta := false, tok := PID.IN, endp := 3, dataWrite := none, advance := false }) 3 = false :=
  (c9_in_ctrl_reset { dtbs := 0, queued := true, epno := 3, resetBit := false, fifo := [1, 2] } 3 3 false false false PID.IN 3).2.2.2 { dtbReset := false, ctrlWrite := none, commit := true, arm := true, sta := false, tok := PID.IN, endp := 3, dataWrite := none, advance := false } rfl rfl

/-- The toggle-reset cycle used by C10: `dtb_reset` asserted, no CPU write. -/
def inDtbResetIn (cm a st : Bool) (tk : PID) (en : Nat) : InIn :=
  { dtbReset := true
    ctrlWrite := none
    commit := cm
    arm := a
    sta := st
    tok := tk
    endp := en
    dataWrite := none
    advance := false }

/-- C10: the `SETUP` stage asserts `in_handler.dtb_reset` on every cycle,
and the resulting toggle update `dtbs.eq(dtbs | (1 << epno))` sets bit
`epno` — the endpoint currently selected in the CPU's `IN_CTRL` register —
to 1 (DATA1), independent of the SETUP token's own endpoint (`usb_core.endp`
does not occur in the update); every other endpoint's bit is unchanged. -/
theorem c10_dtb_reset :
    (∀ (i : CoreIn) (e : Env), (stageComb Stage.SETUP i e).dtbReset = true) ∧
    (∀ (s : InState) (en : Nat) (cm a st : Bool) (tk : PID),
      (inStep s (inDtbResetIn cm a st tk en)).dtbs = s.dtbs ||| (1 <<< s.epno)) ∧
    (∀ (s : InState), (s.dtbs ||| (1 <<< s.epno)).testBit s.epno = true) ∧
    (∀ (s : InState) (j : Nat), j ≠ s.epno →
      (s.dtbs ||| (1 <<< s.epno)).testBit j = s.dtbs.testBit j) := by
  refine ⟨?_, ?_, ?_, ?_⟩
  · intro i e
    simp only [stageComb, stageDefault]
    repeat' split
    all_goals rfl
  · intro s en cm a st tk
    rfl
  · intro s
    simp [Nat.testBit_lor, Nat.one_shiftLeft, Nat.testBit_two_pow_self]
  · intro s j hj
    simp [Nat.testBit_lor, Nat.one_shiftLeft, Nat.testBit_two_pow_of_ne (Ne.symm hj)]

/-- Witness for `c10_dtb_reset`: concrete SETUP-stage cycle and a toggle
update with `ctrl` endpoint 2 while the token endpoint is 7. -/
theorem c10_dtb_reset_witness :
    (stageComb Stage.SETUP { idle := false, tok := PID.SETUP, endp := 7, start := false, setup := false, endTrans := false, dataEnd := false, commit := false, put := false, payload := 0, dbg := false } { stall := false, inResponse := false, outResponse := false, setupEmpty := false, inDtb := false, setupIsIn := false, setupDataStage := false }).dtbReset = true ∧
    (inStep { dtbs := 0, queued := false, epno := 2, resetBit := false, fifo := [] } (inDtbResetIn false false false PID.SETUP 7)).dtbs = 0 ||| (1 <<< 2) ∧
    (7 : Nat) ≠ 2 ∧
    ((0 : Nat) ||| (1 <<< 2)).testBit 7 = (0 : Nat).testBit 7 :=
  ⟨c10_dtb_reset.1 _ _,
    c10_dtb_reset.2.1 { dtbs := 0, queued := false, epno := 2, resetBit := false, fifo := [] } 7 false false false PID.SETUP,
    by decide,
    c10_dtb_reset.2.2.2 { dtbs := 0, queued := false, epno := 2, resetBit := false, fifo := [] } 7 (by decide)⟩

lemma setupTrig_SETUP (i : CoreIn) (e : Env) :
    (stageComb Stage.SETUP i e).setupTrig = i.commit := by
  simp only [stageComb, stageDefault]
  repeat' split
  all_goals rfl

lemma setupTrig_of_ne (st : Stage) (i : CoreIn) (e : Env) (h : st ≠ Stage.SETUP) :
    (stageComb st i e).setupTrig = (!e.setupEmpty && i.endTrans) := by
  cases st <;> simp only [stageComb, stageDefault] <;>
    (repeat' split) <;> first | rfl | exact absurd rfl h

/-- C7: one committed SETUP token can raise the Setup event more than once.
Concrete two-cycle trace: the SETUP transaction commits (raise #1, the only
SETUP-stage commit of the trace), the engine moves to
`WAIT_CONTROL_ACK_IN`, and the next transaction's end — with the 10 SETUP
bytes still undrained — re-raises the event through the handler's driver
`trigger.eq(buf.readable & usb_core.end)` (raise #2): two raises, one
committed SETUP token. -/
theorem c7_counterexample :
    countSetupCommit
      { stage := Stage.SETUP,
        sh := { checkReset := false, bufReset := false, epno := 0, dataBytes := 2,
                hds := false, fifo := [128, 6, 0, 1, 0, 0, 18, 0, 16, 224] } }
      [ { core := { idle := false, tok := PID.SETUP, endp := 0, start := false, setup := true,
                    endTrans := true, dataEnd := false, commit := true, put := false,
                    payload := 0, dbg := false },
          env := { stall := false, inResponse := false, outResponse := false,
                   setupEmpty := true, inDtb := false, setupIsIn := true,
                   setupDataStage := false },
          cpuAdv := false },
        { core := { idle := false, tok := PID.OUT, endp := 0, start := true, setup := false,
                    endTrans := true, dataEnd := false, commit := false, put := false,
                    payload := 0, dbg := false },
          env := { stall := false, inResponse := false, outResponse := false,
                   setupEmpty := true, inDtb := false, setupIsIn := true,
                   setupDataStage := false },
          cpuAdv := false } ] = 1 ∧
    countTrig
      { stage := Stage.SETUP,
        sh := { checkReset := false, bufReset := false, epno := 0, dataBytes := 2,
                hds := false, fifo := [128, 6, 0, 1, 0, 0, 18, 0, 16, 224] } }
      [ { core := { idle := false, tok := PID.SETUP, endp := 0, start := false, setup := true,
                    endTrans := true, dataEnd := false, commit := true, put := false,
                    payload := 0, dbg := false },
          env := { stall := false, inResponse := false, outResponse := false,
                   setupEmpty := true, inDtb := false, setupIsIn := true,
                   setupDataStage := false },
          cpuAdv := false },
        { core := { idle := false, tok := PID.OUT, endp := 0, start := true, setup := false,
                    endTrans := true, dataEnd := false, commit := false, put := false,
                    payload := 0, dbg := false },
          env := { stall := false, inResponse := false, outResponse := false,
                   setupEmpty := true, inDtb := false, setupIsIn := true,
                   setupDataStage := false },
          cpuAdv := false } ] = 2 := by
  constructor <;> rfl

/-- C7 (amended): over every input trace, the number of Setup event raises
equals the number of SETUP-stage commits plus the number of transaction
ends occurring outside the `SETUP` stage while the Setup FIFO still holds
unread bytes.  Hence every fully committed SETUP token raises the event at
its commit, but the same record raises it again at each later transaction
end until the CPU drains the FIFO — at least once, not exactly once. -/
theorem c7_amended : ∀ (g : EngState) (xs : List StepIn),
    countTrig g xs = countSetupCommit g xs + countStaleEnd g xs := by
  intro g xs
  induction xs generalizing g with
  | nil => rfl
  | cons x xs ih =>
    simp only [countTrig, countSetupCommit, countStaleEnd, ih]
    by_cases hst : g.stage = Stage.SETUP
    · rw [trigOf, hst, setupTrig_SETUP]
      rcases hcm : x.core.commit <;> (simp [hst, hcm]; try omega)
    · rw [trigOf, setupTrig_of_ne _ _ _ hst]
      rcases hem : g.sh.fifo.isEmpty <;> rcases hend : x.core.endTrans <;>
        (simp [envWith, hst, hem, hend]; try omega)

/-- One payload-byte delivery cycle of a SETUP data packet: the token is
still latched to SETUP and `data_recv_put` pulses with payload byte `b`. -/
def setupPutCycle (e b : Nat) : SetupIn :=
  { start := false, tok := PID.SETUP, endp := e, put := true, payload := b, advance := false }

/-- A quiet cycle with the SETUP token latched: no start, no put, no pop. -/
def setupQuietCycle (e : Nat) : SetupIn :=
  { start := false, tok := PID.SETUP, endp := e, put := false, payload := 0, advance := false }

/-- The cycle on which `usb_core.start` pulses for a new SETUP token. -/
def setupStartCycle (e : Nat) : SetupIn :=
  { start := true, tok := PID.SETUP, endp := e, put := false, payload := 0, advance := false }

/-- The input trace of a complete new SETUP token aimed at endpoint `e`
delivering payload bytes `bs`: the `start` pulse, two latched quiet cycles
(the delayed `check_reset` and then the registered `buf.reset`), then one
`data_recv_put` cycle per byte. -/
def setupTokenTrace (e : Nat) (bs : List Nat) : List SetupIn :=
  setupStartCycle e :: setupQuietCycle e :: setupQuietCycle e :: bs.map (setupPutCycle e)

lemma runSetup_puts : ∀ (bs : List Nat) (s : SetupState) (e : Nat),
    s.checkReset = false → s.bufReset = false → s.fifo.length + bs.length ≤ 10 →
    (runSetup s (bs.map (setupPutCycle e))).fifo = s.fifo ++ bs.map (fun b => b % 256) := by
  intro bs
  induction bs with
  | nil => intro s e h1 h2 h3; simp [runSetup]
  | cons b bs ih =>
    intro s e h1 h2 h3
    have hlen : s.fifo.length < 10 := by
      simp only [List.length_cons] at h3
      omega
    have hc : (setupStep s (setupPutCycle e b)).checkReset = false := rfl
    have hb : (setupStep s (setupPutCycle e b)).bufReset = false := by
      simp [setupStep, setupPutCycle, h1]
    have hf : (setupStep s (setupPutCycle e b)).fifo = s.fifo ++ [b % 256] := by
      simp [setupStep, setupPutCycle, h2, hlen]
    have h' := ih (setupStep s (setupPutCycle e b)) e hc hb (by
      rw [hf]
      simp only [List.length_append, List.length_cons] at h3 ⊢
      simp
      omega)
    show (runSetup (setupStep s (setupPutCycle e b)) (bs.map (setupPutCycle e))).fifo = _
    rw [h', hf]
    simp

/-- C8: a new SETUP token always yields a fresh record.  Starting from ANY
handler state (in particular with unread bytes of a previous record still in
the FIFO), running the trace of a new SETUP token delivering bytes `bs`
(at most the 8+2 record size) leaves exactly `bs` in the FIFO: the
`check_reset`-delayed `buf.reset` unconditionally discards the old bytes
before any new byte is stored, so records from distinct SETUP tokens are
never merged. -/
theorem c8_fresh_record : ∀ (s : SetupState) (e : Nat) (bs : List Nat),
    bs.length ≤ 10 →
    (runSetup s (setupTokenTrace e bs)).fifo = bs.map (fun b => b % 256) := by
  intro s e bs hlen
  have h3f : (setupStep (setupStep (setupStep s (setupStartCycle e))
      (setupQuietCycle e)) (setupQuietCycle e)).fifo = [] := rfl
  have key := runSetup_puts bs (setupStep (setupStep (setupStep s (setupStartCycle e))
      (setupQuietCycle e)) (setupQuietCycle e)) e rfl rfl (by rw [h3f]; simpa)
  show (runSetup (setupStep (setupStep (setupStep s (setupStartCycle e))
      (setupQuietCycle e)) (setupQuietCycle e)) (bs.map (setupPutCycle e))).fifo = _
  rw [key, h3f]
  simp

/-- Witness for `c8_fresh_record`: a handler still holding three unread
bytes `[9, 9, 9]` receives a new 10-byte SETUP record; afterwards the FIFO
holds exactly the new record. -/
theorem c8_fresh_record_witness :
    ([3, 1, 4, 1, 5, 9, 2, 6, 53, 58] : List Nat).length ≤ 10 ∧
    (runSetup { checkReset := true, bufReset := false, epno := 7, dataBytes := 5, hds := true, fifo := [9, 9, 9] } (setupTokenTrace 0 [3, 1, 4, 1, 5, 9, 2, 6, 53, 58])).fifo = [3, 1, 4, 1, 5, 9, 2, 6, 53, 58] :=
  ⟨by decide, by
    rw [c8_fresh_record { checkReset := true, bufReset := false, epno := 7, dataBytes := 5, hds := true, fifo := [9, 9, 9] } 0 [3, 1, 4, 1, 5, 9, 2, 6, 53, 58] (by decide)]
    rfl⟩
